import Mathlib

/-!
Verification of the episode-driving control loop and experience-replay
coordination logic of `train_eval_atari.py` (class `TrainEval`).

The Python source is shallowly embedded: the environment is a deterministic
state machine with an out-of-band `gameOver` flag, rewards and discounts are
rationals, and the stateful methods `_collect_step`, `_run_episode`,
`_store_to_rb`, `_initial_collect` and the train-phase loop of `run` become
pure functions that thread the environment state, the replay buffer, the
metric counters and effect logs (transitions written to the store, transitions
delivered to the metric observers) explicitly.  Loops that are `while True` in
the source are given a fuel parameter and return `Option`/`none` on fuel
exhaustion.
-/

namespace TrainEvalAtari

/-- Step kinds of a timestep: FIRST starts an episode, LAST ends one. -/
inductive StepKind where
  | first
  | mid
  | last
deriving DecidableEq, Inhabited, Repr

/-- A timestep as produced by the environment: step type, reward and discount
delivered with this step, and the observation.  Observations are abstracted
to naturals. -/
structure TimeStep where
  stepType : StepKind
  reward : ℚ
  discount : ℚ
  observation : ℕ
deriving DecidableEq, Inhabited, Repr

/-- Mirror of `time_step.is_last()`. -/
def TimeStep.isLast (t : TimeStep) : Bool := t.stepType == StepKind.last

/-- Mirror of `ts.restart(observation)`: a FIRST step with reward 0 and
discount 1. -/
def tsRestart (obs : ℕ) : TimeStep := ⟨StepKind.first, 0, 1, obs⟩

/-- Mirror of `ts.transition(observation, reward)`: a MID step with the given
reward and the default discount 1. -/
def tsTransition (obs : ℕ) (reward : ℚ) : TimeStep := ⟨StepKind.mid, reward, 1, obs⟩

/-- Mirror of `policy_step.PolicyStep`: the chosen action (policy info is not
needed by any claim). -/
structure ActionStep where
  action : ℕ
deriving DecidableEq, Inhabited, Repr

/-- Modelled from the spec: a Transition (trajectory element)
`{observation, action, policy_info, reward, discount, step_kind,
next_step_kind}` representing one edge between two timesteps
(`tf_agents.environments.trajectory.Trajectory` is not under `src/`). -/
structure Trajectory where
  stepType : StepKind
  observation : ℕ
  action : ℕ
  reward : ℚ
  discount : ℚ
  nextStepType : StepKind
deriving DecidableEq, Inhabited, Repr

/-- Modelled from the spec: `trajectory.from_transition(time_step, action_step,
next_time_step)` constructs the Transition for one agent step from (prev
timestep, action, next timestep); the reward and discount of the edge are the
ones delivered with the next timestep. -/
def fromTransition (t : TimeStep) (a : ActionStep) (t' : TimeStep) : Trajectory :=
  ⟨t.stepType, t.observation, a.action, t'.reward, t'.discount, t'.stepType⟩

/-- Modelled from the spec: the Experience Store
(`py_hashed_replay_buffer.PyHashedReplayBuffer` is not under `src/`): a
fixed-capacity circular buffer; `add` inserts at the next ring slot,
overwriting the oldest entry once at capacity; size is capped at capacity.
Deduplication is a memory optimization the spec explicitly allows to drop. -/
structure ReplayBuffer where
  capacity : ℕ
  frames : List Trajectory
deriving DecidableEq, Inhabited, Repr

/-- Observable size of the store (`self._replay_buffer.size`). -/
def ReplayBuffer.size (rb : ReplayBuffer) : ℕ := rb.frames.length

/-- Mirror of `add_batch`: append one transition, dropping the oldest entry
once at capacity. -/
def ReplayBuffer.addBatch (rb : ReplayBuffer) (tr : Trajectory) : ReplayBuffer :=
  if rb.frames.length < rb.capacity then ⟨rb.capacity, rb.frames ++ [tr]⟩
  else ⟨rb.capacity, rb.frames.tail ++ [tr]⟩

/-- Mirror of `np.clip(x, lo, hi)` (equivalently `min hi (max lo x)`). -/
def npClip (lo hi x : ℚ) : ℚ := min hi (max lo x)

/-- The reward-clipped copy of a transition produced inside `_store_to_rb`:
`traj._replace(reward=np.clip(traj.reward, -1, 1))`. -/
def clipTraj (tr : Trajectory) : Trajectory := { tr with reward := npClip (-1) 1 tr.reward }

/-- Mirror of `TrainEval._store_to_rb`: clip the reward to [-1, 1], then add
to the replay buffer. -/
def storeToRb (rb : ReplayBuffer) (tr : Trajectory) : ReplayBuffer :=
  rb.addBatch (clipTraj tr)

/-- A policy maps a timestep to an action step (`policy.action(time_step)`);
the policies used by the driver are stateless with respect to the store and
metrics. -/
def Policy : Type := TimeStep → ActionStep

/-- The environment collaborator: a deterministic state machine exposing
`reset`, `step` and the out-of-band `game_over` flag
(`self._env.envs[0].game_over`). -/
structure PyEnv (σ : Type) where
  reset : σ → σ × TimeStep
  step : σ → ℕ → σ × TimeStep
  gameOver : σ → Bool

/-- Everything one call of `_collect_step` produces: the new environment
state, the returned timestep, the updated replay buffer, the transitions
passed to `self._replay_buffer.add_batch` (in order, reward already clipped),
the transitions passed to the metric observers (in order), and the number of
environment `step` calls made. -/
structure CollectResult (σ : Type) where
  envState : σ
  nextTimeStep : TimeStep
  rb : ReplayBuffer
  written : List Trajectory
  observed : List Trajectory
  envStepsTaken : ℕ
deriving DecidableEq, Repr

/-- Mirror of `TrainEval._collect_step`: run a single step (or 2 steps on
life loss) in the environment.  The life-loss condition is
`next_time_step.is_last() and not self.game_over()`; on life loss the
assembled transition's discount is overridden to 1.0, the transition is
stored (train mode), a MID re-expression of it is observed, then a synthetic
restart/FIRST step is taken, one more real environment step follows, that
restart transition is stored (train mode), and its MID re-expression (with
the pre-life-loss `time_step.reward` reattached to the synthetic MID
timestep) is observed. -/
def collectStep {σ : Type} (env : PyEnv σ) (policy : Policy) (s : σ)
    (timeStep : TimeStep) (rb : ReplayBuffer) (train : Bool) : CollectResult σ :=
  let actionStep := policy timeStep
  let s1 := (env.step s actionStep.action).1
  let nextTimeStep := (env.step s actionStep.action).2
  let traj0 := fromTransition timeStep actionStep nextTimeStep
  let lifeLoss := nextTimeStep.isLast && !(env.gameOver s1)
  let traj := if lifeLoss then { traj0 with discount := 1 } else traj0
  let rb1 := if train then storeToRb rb traj else rb
  let written1 : List Trajectory := if train then [clipTraj traj] else []
  if lifeLoss then
    let ntMid := tsTransition nextTimeStep.observation nextTimeStep.reward
    let obs1 := fromTransition timeStep actionStep ntMid
    let savedReward := timeStep.reward
    let timeStep2 := tsRestart ntMid.observation
    let actionStep2 := policy timeStep2
    let s2 := (env.step s1 actionStep2.action).1
    let nextTimeStep2 := (env.step s1 actionStep2.action).2
    let traj2 := fromTransition timeStep2 actionStep2 nextTimeStep2
    let rb2 := if train then storeToRb rb1 traj2 else rb1
    let written2 := if train then written1 ++ [clipTraj traj2] else written1
    let timeStep3 := tsTransition timeStep2.observation savedReward
    let trajM := fromTransition timeStep3 actionStep2 nextTimeStep2
    ⟨s2, nextTimeStep2, rb2, written2, [obs1, trajM], 2⟩
  else
    ⟨s1, nextTimeStep, rb1, written1, [traj], 1⟩

/-- Accumulated state of one `_run_episode` call: the environment state, the
`env_steps` counter the method returns (incremented once per `_collect_step`
call), the replay buffer, the effect logs, the actual number of environment
`step` calls made, the `EnvironmentSteps` metric value and the number of
learning-update (`_train_step_call`) invocations so far. -/
structure EpisodeResult (σ : Type) where
  envState : σ
  envSteps : ℕ
  rb : ReplayBuffer
  written : List Trajectory
  observed : List Trajectory
  envStepsTaken : ℕ
  stepsMetric : ℕ
  updates : ℕ
deriving DecidableEq, Repr

/-- Modelled from the spec: the `EnvironmentSteps` step-counter metric
(`py_metrics.EnvironmentSteps` is not under `src/`) is a stateful accumulator
updated once per transition delivered to the metric observers; it is among
the train-mode observers only, so it advances only when `train` is true. -/
def stepsMetricAfter (train : Bool) (metric : ℕ) (observedCount : ℕ) : ℕ :=
  if train then metric + observedCount else metric

/-- Mirror of the `while True` loop body of `TrainEval._run_episode`:
call `_collect_step`, increment `env_steps`, break when `self.game_over()`,
otherwise trigger one learning update when in train mode and the
`EnvironmentSteps` metric is a multiple of `update_period`, then continue.
Fuel bounds the number of loop iterations; `none` means fuel ran out. -/
def runEpisodeAux {σ : Type} (env : PyEnv σ) (policy : Policy) (updatePeriod : ℕ)
    (train : Bool) : ℕ → σ → TimeStep → EpisodeResult σ → Option (EpisodeResult σ)
  | 0, _, _, _ => none
  | Nat.succ fuel, s, timeStep, acc =>
    let r := collectStep env policy s timeStep acc.rb train
    let metric := stepsMetricAfter train acc.stepsMetric r.observed.length
    let acc1 : EpisodeResult σ :=
      ⟨r.envState, acc.envSteps + 1, r.rb, acc.written ++ r.written,
        acc.observed ++ r.observed, acc.envStepsTaken + r.envStepsTaken,
        metric, acc.updates⟩
    if env.gameOver r.envState then some acc1
    else
      let acc2 := if train && (metric % updatePeriod == 0)
        then { acc1 with updates := acc1.updates + 1 } else acc1
      runEpisodeAux env policy updatePeriod train fuel r.envState r.nextTimeStep acc2

/-- Mirror of `TrainEval._run_episode`: reset the environment, then run the
collect loop starting from `env_steps = 0` with the given replay buffer,
`EnvironmentSteps` metric value and learning-update count. -/
def runEpisode {σ : Type} (env : PyEnv σ) (policy : Policy) (updatePeriod : ℕ)
    (train : Bool) (fuel : ℕ) (s0 : σ) (rb : ReplayBuffer)
    (stepsMetric updates : ℕ) : Option (EpisodeResult σ) :=
  let s1 := (env.reset s0).1
  let t0 := (env.reset s0).2
  runEpisodeAux env policy updatePeriod train fuel s1 t0
    ⟨s1, 0, rb, [], [], 0, stepsMetric, updates⟩

/-- Result of one train phase: environment state, the phase's accumulated
`env_steps`, the replay buffer, the `EnvironmentSteps` metric and the total
learning-update count. -/
structure PhaseResult (σ : Type) where
  envState : σ
  envSteps : ℕ
  rb : ReplayBuffer
  stepsMetric : ℕ
  updates : ℕ
deriving DecidableEq, Repr

/-- Mirror of the train-phase loop of `TrainEval.run`:
`while env_steps < self._train_steps_per_iteration: env_steps +=
self._run_episode(..., train=True)`.  The outer fuel bounds the number of
episodes; `none` means some fuel ran out. -/
def trainPhaseAux {σ : Type} (env : PyEnv σ) (policy : Policy)
    (updatePeriod budget episodeFuel : ℕ) :
    ℕ → σ → ℕ → ReplayBuffer → ℕ → ℕ → Option (PhaseResult σ)
  | 0, s, envSteps, rb, metric, updates =>
    if envSteps < budget then none else some ⟨s, envSteps, rb, metric, updates⟩
  | Nat.succ fuel, s, envSteps, rb, metric, updates =>
    if envSteps < budget then
      match runEpisode env policy updatePeriod true episodeFuel s rb metric updates with
      | none => none
      | some r =>
        trainPhaseAux env policy updatePeriod budget episodeFuel fuel
          r.envState (envSteps + r.envSteps) r.rb r.stepsMetric r.updates
    else some ⟨s, envSteps, rb, metric, updates⟩

/-- One train phase starting from `env_steps = 0`. -/
def trainPhase {σ : Type} (env : PyEnv σ) (policy : Policy)
    (updatePeriod budget episodeFuel phaseFuel : ℕ) (s0 : σ) (rb : ReplayBuffer)
    (stepsMetric updates : ℕ) : Option (PhaseResult σ) :=
  trainPhaseAux env policy updatePeriod budget episodeFuel phaseFuel s0 0 rb
    stepsMetric updates

/-- Result of `_initial_collect`: final environment state, replay buffer and
the number of episodes started (the reset before the loop plus each in-loop
reset on `game_over`). -/
structure InitialCollectResult (σ : Type) where
  envState : σ
  rb : ReplayBuffer
  episodes : ℕ
deriving DecidableEq, Repr

/-- Mirror of the loop of `TrainEval._initial_collect`:
`while self._replay_buffer.size < self._initial_collect_steps:` reset on
`game_over`, take a random-policy action, step, and `add_batch` the raw
transition (note: directly, not through `_store_to_rb`, so no reward
clipping).  Fuel bounds the iterations. -/
def initialCollectAux {σ : Type} (env : PyEnv σ) (policy : Policy) (threshold : ℕ) :
    ℕ → σ → TimeStep → ReplayBuffer → ℕ → Option (InitialCollectResult σ)
  | 0, s, _, rb, episodes =>
    if rb.size < threshold then none else some ⟨s, rb, episodes⟩
  | Nat.succ fuel, s, timeStep, rb, episodes =>
    if rb.size < threshold then
      let s' := if env.gameOver s then (env.reset s).1 else s
      let t' := if env.gameOver s then (env.reset s).2 else timeStep
      let episodes' := if env.gameOver s then episodes + 1 else episodes
      let actionStep := policy t'
      let s2 := (env.step s' actionStep.action).1
      let nt := (env.step s' actionStep.action).2
      let rb' := rb.addBatch (fromTransition t' actionStep nt)
      initialCollectAux env policy threshold fuel s2 nt rb' episodes'
    else some ⟨s, rb, episodes⟩

/-- Mirror of `TrainEval._initial_collect`: reset once (starting episode 1),
then loop until the store size reaches the threshold. -/
def initialCollect {σ : Type} (env : PyEnv σ) (policy : Policy)
    (threshold fuel : ℕ) (s0 : σ) (rb : ReplayBuffer) :
    Option (InitialCollectResult σ) :=
  let s1 := (env.reset s0).1
  let t0 := (env.reset s0).2
  initialCollectAux env policy threshold fuel s1 t0 rb 1

/-- Mirror of the module constant `ATARI_FRAME_SKIP = 4`. -/
def atariFrameSkip : ℚ := 4

/-- Mirror of `self._update_period = update_period / ATARI_FRAME_SKIP`
(ALE frames to agent steps). -/
def updatePeriodAgent (updatePeriodALE : ℚ) : ℚ := updatePeriodALE / atariFrameSkip

/-- Mirror of the decay-steps argument of the ε schedule:
`epsilon_decay_period / ATARI_FRAME_SKIP / self._update_period` (the
schedule is driven by the global step, which advances once per learning
update, i.e. once per `update_period` agent steps). -/
def epsilonDecaySteps (epsilonDecayPeriodALE updatePeriodALE : ℚ) : ℚ :=
  epsilonDecayPeriodALE / atariFrameSkip / updatePeriodAgent updatePeriodALE

/-- Mirror of `tf.train.polynomial_decay(initV, global_step, decay_steps,
end_learning_rate=endV)` with the default `power=1.0` and `cycle=False`: the
step is clamped to `decay_steps` and the value decays linearly from `initV`
to `endV`. -/
def polynomialDecay (initV endV decaySteps globalStep : ℚ) : ℚ :=
  let gs := min globalStep decaySteps
  (initV - endV) * (1 - gs / decaySteps) + endV

/-- The ε schedule of `TrainEval.__init__`: `tf.train.polynomial_decay(1.0,
self._global_step, decay_steps, end_learning_rate=epsilon_greedy)`. -/
def epsilonSchedule (epsilonGreedy decaySteps globalStep : ℚ) : ℚ :=
  polynomialDecay 1 epsilonGreedy decaySteps globalStep

/-- The environment collaborator with fallible `reset`/`step` calls, for the
failure-semantics claim: the Python driver contains no `try`/`except`, so any
exception raised by the environment propagates; the embedding makes this an
`Except` that every caller re-raises by monadic bind. -/
structure PyEnvE (σ ε : Type) where
  reset : σ → Except ε (σ × TimeStep)
  step : σ → ℕ → Except ε (σ × TimeStep)
  gameOver : σ → Bool

/-- `_collect_step` over a fallible environment: identical control flow to
`collectStep`, with each environment call bound in `Except` (no handler
anywhere, mirroring the absence of `try`/`except` in the source). -/
def collectStepE {σ ε : Type} (env : PyEnvE σ ε) (policy : Policy) (s : σ)
    (timeStep : TimeStep) (rb : ReplayBuffer) (train : Bool) :
    Except ε (CollectResult σ) := do
  let actionStep := policy timeStep
  let sn ← env.step s actionStep.action
  let s1 := sn.1
  let nextTimeStep := sn.2
  let traj0 := fromTransition timeStep actionStep nextTimeStep
  let lifeLoss := nextTimeStep.isLast && !(env.gameOver s1)
  let traj := if lifeLoss then { traj0 with discount := 1 } else traj0
  let rb1 := if train then storeToRb rb traj else rb
  let written1 : List Trajectory := if train then [clipTraj traj] else []
  if lifeLoss then do
    let ntMid := tsTransition nextTimeStep.observation nextTimeStep.reward
    let obs1 := fromTransition timeStep actionStep ntMid
    let savedReward := timeStep.reward
    let timeStep2 := tsRestart ntMid.observation
    let actionStep2 := policy timeStep2
    let sn2 ← env.step s1 actionStep2.action
    let s2 := sn2.1
    let nextTimeStep2 := sn2.2
    let traj2 := fromTransition timeStep2 actionStep2 nextTimeStep2
    let rb2 := if train then storeToRb rb1 traj2 else rb1
    let written2 := if train then written1 ++ [clipTraj traj2] else written1
    let timeStep3 := tsTransition timeStep2.observation savedReward
    let trajM := fromTransition timeStep3 actionStep2 nextTimeStep2
    pure ⟨s2, nextTimeStep2, rb2, written2, [obs1, trajM], 2⟩
  else
    pure ⟨s1, nextTimeStep, rb1, written1, [traj], 1⟩

/-- `_run_episode`'s loop over a fallible environment; the inner `Option` is
`none` on fuel exhaustion, environment failures surface as `Except.error`. -/
def runEpisodeAuxE {σ ε : Type} (env : PyEnvE σ ε) (policy : Policy)
    (updatePeriod : ℕ) (train : Bool) :
    ℕ → σ → TimeStep → EpisodeResult σ → Except ε (Option (EpisodeResult σ))
  | 0, _, _, _ => pure none
  | Nat.succ fuel, s, timeStep, acc => do
    let r ← collectStepE env policy s timeStep acc.rb train
    let metric := stepsMetricAfter train acc.stepsMetric r.observed.length
    let acc1 : EpisodeResult σ :=
      ⟨r.envState, acc.envSteps + 1, r.rb, acc.written ++ r.written,
        acc.observed ++ r.observed, acc.envStepsTaken + r.envStepsTaken,
        metric, acc.updates⟩
    if env.gameOver r.envState then pure (some acc1)
    else
      let acc2 := if train && (metric % updatePeriod == 0)
        then { acc1 with updates := acc1.updates + 1 } else acc1
      runEpisodeAuxE env policy updatePeriod train fuel r.envState r.nextTimeStep acc2

/-- `_run_episode` over a fallible environment: the initial `reset` failure
also propagates. -/
def runEpisodeE {σ ε : Type} (env : PyEnvE σ ε) (policy : Policy)
    (updatePeriod : ℕ) (train : Bool) (fuel : ℕ) (s0 : σ) (rb : ReplayBuffer)
    (stepsMetric updates : ℕ) : Except ε (Option (EpisodeResult σ)) := do
  let st ← env.reset s0
  runEpisodeAuxE env policy updatePeriod train fuel st.1 st.2
    ⟨st.1, 0, rb, [], [], 0, stepsMetric, updates⟩

/-- The orchestrator's train-phase loop over a fallible environment: it calls
`_run_episode` with no handler, so environment failures propagate out of the
phase (and out of `run`). -/
def trainPhaseAuxE {σ ε : Type} (env : PyEnvE σ ε) (policy : Policy)
    (updatePeriod budget episodeFuel : ℕ) :
    ℕ → σ → ℕ → ReplayBuffer → ℕ → ℕ → Except ε (Option (PhaseResult σ))
  | 0, s, envSteps, rb, metric, updates =>
    if envSteps < budget then pure none
    else pure (some ⟨s, envSteps, rb, metric, updates⟩)
  | Nat.succ fuel, s, envSteps, rb, metric, updates =>
    if envSteps < budget then do
      let ro ← runEpisodeE env policy updatePeriod true episodeFuel s rb metric updates
      match ro with
      | none => pure none
      | some r =>
        trainPhaseAuxE env policy updatePeriod budget episodeFuel fuel
          r.envState (envSteps + r.envSteps) r.rb r.stepsMetric r.updates
    else pure (some ⟨s, envSteps, rb, metric, updates⟩)

/-- Concrete stateless policy standing in for the collect/random policies in
the scenario runs (the stub environments ignore the action). -/
def policy0 : Policy := fun _ => ⟨0⟩

/-- A concrete MID timestep used as the incoming timestep of single
`collectStep` calls at a life-loss boundary. -/
def tMid : TimeStep := ⟨StepKind.mid, 1, 1, 102⟩

/-- An empty replay buffer with capacity 100. -/
def rbE : ReplayBuffer := ⟨100, []⟩

/-- Default trajectory for `List.getD` extraction in theorem statements (all
fields chosen so that no claim below holds of the default by accident). -/
def trajDefault : Trajectory := ⟨StepKind.mid, 0, 0, 0, 0, StepKind.mid⟩

/-- Mirror of the raw-frame to agent-step conversion applied to configuration
parameters, e.g. `self._initial_collect_steps = initial_collect_steps /
ATARI_FRAME_SKIP`. -/
def aleToAgentSteps (aleFrames : ℕ) : ℕ := aleFrames / 4

/-- Deterministic stub environment, state = steps taken in the current
episode: every step has reward 1; the `epLen`-th step of an episode is LAST
with `game_over = True` (fixed-length episodes, no life loss). -/
def stubEnv (epLen : ℕ) : PyEnv ℕ where
  reset := fun _ => (0, tsRestart 0)
  step := fun s _ =>
    let s' := s + 1
    (s', if epLen ≤ s' then ⟨StepKind.last, 1, 0, s'⟩ else ⟨StepKind.mid, 1, 1, s'⟩)
  gameOver := fun s => epLen ≤ s

/-- Deterministic environment with a life-loss boundary, state = steps taken:
step 3 returns LAST while `game_over` stays false (a lost life), step 6
returns LAST with `game_over = True`; every step has reward 1. -/
def lifeLossEnv : PyEnv ℕ where
  reset := fun _ => (0, tsRestart 100)
  step := fun s _ =>
    let s' := s + 1
    ( s',
      if s' = 3 then ⟨StepKind.last, 1, 0, 103⟩
      else if 6 ≤ s' then ⟨StepKind.last, 1, 0, 106⟩
      else ⟨StepKind.mid, 1, 1, 100 + s'⟩ )
  gameOver := fun s => 6 ≤ s

/-- Stub environment like `stubEnv` but with per-step reward 2, outside the
clipping range [-1, 1]. -/
def bigRewardEnv (epLen : ℕ) : PyEnv ℕ where
  reset := fun _ => (0, tsRestart 0)
  step := fun s _ =>
    let s' := s + 1
    (s', if epLen ≤ s' then ⟨StepKind.last, 2, 0, s'⟩ else ⟨StepKind.mid, 2, 1, s'⟩)
  gameOver := fun s => epLen ≤ s

/-- Fallible environment whose `reset` raises error 7. -/
def resetFailEnv : PyEnvE ℕ ℕ where
  reset := fun _ => Except.error 7
  step := fun s _ => Except.ok (s + 1, tsTransition s 1)
  gameOver := fun _ => false

/-- Fallible environment whose `reset` succeeds and whose first `step`
raises error 9. -/
def stepFailEnv : PyEnvE ℕ ℕ where
  reset := fun _ => Except.ok (0, tsRestart 0)
  step := fun _ _ => Except.error 9
  gameOver := fun _ => false

/-! ## Helper lemmas -/

/-- In EVAL mode (`train = false`) a single `_collect_step` leaves the replay
buffer untouched and writes nothing, in both the normal and the life-loss
branch. -/
theorem collectStep_eval_store {σ : Type} (env : PyEnv σ) (p : Policy) (s : σ)
    (t : TimeStep) (rb : ReplayBuffer) :
    (collectStep env p s t rb false).rb = rb ∧ (collectStep env p s t rb false).written = [] := by
  simp [collectStep, apply_ite (@CollectResult.rb σ),
    apply_ite (@CollectResult.written σ)]

/-- The `_run_episode` loop returns (rather than recursing or running out of
fuel) only at a state where `self.game_over()` holds: a LAST timestep with
`game_over` false never ends the episode. -/
theorem runEpisodeAux_gameOver_map {σ : Type} (env : PyEnv σ) (p : Policy) (up : ℕ)
    (train : Bool) (fuel : ℕ) :
    ∀ (s : σ) (t : TimeStep) (acc : EpisodeResult σ),
      (runEpisodeAux env p up train fuel s t acc).map (fun r => env.gameOver r.envState) =
        (runEpisodeAux env p up train fuel s t acc).map (fun _ => true) := by
  induction fuel with
  | zero => intro s t acc; rfl
  | succ fuel ih =>
    intro s t acc
    rw [runEpisodeAux]
    cases h : env.gameOver (collectStep env p s t acc.rb train).envState with
    | true => simp [h]
    | false => simp only [h]; simp; exact ih _ _ _

/-- The `_run_episode` loop in EVAL mode carries the replay buffer and the
write log through unchanged. -/
theorem runEpisodeAux_eval_store {σ : Type} (env : PyEnv σ) (p : Policy) (up : ℕ)
    (fuel : ℕ) :
    ∀ (s : σ) (t : TimeStep) (acc : EpisodeResult σ),
      (runEpisodeAux env p up false fuel s t acc).map (fun r => (r.rb, r.written)) =
        (runEpisodeAux env p up false fuel s t acc).map (fun _ => (acc.rb, acc.written)) := by
  induction fuel with
  | zero => intro s t acc; rfl
  | succ fuel ih =>
    intro s t acc
    rw [runEpisodeAux]
    have hrb := (collectStep_eval_store env p s t acc.rb).1
    have hw := (collectStep_eval_store env p s t acc.rb).2
    cases h : env.gameOver (collectStep env p s t acc.rb false).envState with
    | true => simp [h, hrb, hw]
    | false =>
      simp only [h]
      simp [hrb, hw]
      exact ih _ _ _

/-- One `add_batch` starting below a bound never jumps past the bound:
below capacity the size grows by one, at capacity the ring overwrite keeps
it unchanged. -/
theorem addBatch_size_le {rb : ReplayBuffer} {tr : Trajectory} {thr : ℕ}
    (h : rb.size < thr) : (rb.addBatch tr).size ≤ thr := by
  simp only [ReplayBuffer.addBatch, ReplayBuffer.size] at h ⊢
  split <;> simp [List.length_tail] <;> omega

/-- Whenever the `_initial_collect` loop terminates normally, the store size
is exactly the threshold (or the starting size, when that already met the
threshold): the loop adds one item per iteration and re-checks the size
before each add. -/
theorem initialCollectAux_size_map {σ : Type} (env : PyEnv σ) (p : Policy) (thr : ℕ)
    (fuel : ℕ) :
    ∀ (s : σ) (t : TimeStep) (rb : ReplayBuffer) (eps : ℕ),
      (initialCollectAux env p thr fuel s t rb eps).map (fun r => r.rb.size) =
        (initialCollectAux env p thr fuel s t rb eps).map (fun _ => max rb.size thr) := by
  induction fuel with
  | zero =>
    intro s t rb eps
    simp only [initialCollectAux]
    split
    · rfl
    · rename_i h
      simp
      omega
  | succ fuel ih =>
    intro s t rb eps
    simp only [initialCollectAux]
    by_cases h : rb.size < thr
    · simp only [if_pos h]
      rw [ih]
      congr 1
      funext r
      have hle := @addBatch_size_le rb (fromTransition
          (if env.gameOver s then (env.reset s).2 else t)
          (p (if env.gameOver s then (env.reset s).2 else t))
          (env.step (if env.gameOver s then (env.reset s).1 else s)
            (p (if env.gameOver s then (env.reset s).2 else t)).action).2) thr h
      omega
    · simp only [if_neg h]
      simp
      omega

/-- The clipped value `np.clip(x, -1, 1)` always lies in `[-1, 1]`. -/
theorem npClip_mem (x : ℚ) : (-1 : ℚ) ≤ npClip (-1) 1 x ∧ npClip (-1) 1 x ≤ 1 := by
  unfold npClip
  exact ⟨le_min (by norm_num) (le_max_left _ _), min_le_left _ _⟩

/-- Clipping a value already in `[-1, 1]` is the identity. -/
theorem npClip_of_mem {x : ℚ} (h1 : (-1 : ℚ) ≤ x) (h2 : x ≤ 1) :
    npClip (-1) 1 x = x := by
  unfold npClip
  rw [max_eq_right h1, min_eq_right h2]

/-- The reward of the clipped copy of any transition lies in `[-1, 1]`. -/
theorem clipTraj_reward_mem (y : Trajectory) :
    (-1 : ℚ) ≤ (clipTraj y).reward ∧ (clipTraj y).reward ≤ 1 := by
  simp only [clipTraj]
  exact npClip_mem _

/-! ## Claim theorems -/

/-- C1 counterexample: at a concrete life-loss boundary (the environment
returns a LAST timestep while `game_over` is false) in TRAIN mode,
`_collect_step` performs TWO store writes — the boundary-crossing transition
at its first `_store_to_rb` call and the synthetic restart transition at its
second — so "exactly one transition is written to the Store for that
boundary" is false on the code. -/
theorem lifeLoss_single_store_write_refuted :
    (lifeLossEnv.step 2 (policy0 tMid).action).2.stepType = StepKind.last ∧
    lifeLossEnv.gameOver (lifeLossEnv.step 2 (policy0 tMid).action).1 = false ∧
    (collectStep lifeLossEnv policy0 2 tMid rbE true).written.length = 2 ∧
    (collectStep lifeLossEnv policy0 2 tMid rbE true).written.length ≠ 1 := by
  refine ⟨by decide, by decide, by decide, by decide⟩

/-- C1 amended: for every life-loss boundary hit by `_collect_step` in TRAIN
mode, exactly two transitions are written to the Store for that boundary:
first the boundary-crossing transition itself (kept ending in a LAST step,
with its discount overridden to 1), then the synthetic restart transition
(starting with a FIRST step). -/
theorem lifeLoss_boundary_store_writes {σ : Type} (env : PyEnv σ) (p : Policy)
    (s : σ) (t : TimeStep) (rb : ReplayBuffer)
    (h1 : ((env.step s (p t).action).2).stepType = StepKind.last)
    (h2 : env.gameOver (env.step s (p t).action).1 = false) :
    (collectStep env p s t rb true).written.length = 2 ∧
    ((collectStep env p s t rb true).written.getD 0 trajDefault).nextStepType =
      StepKind.last ∧
    ((collectStep env p s t rb true).written.getD 0 trajDefault).discount = 1 ∧
    ((collectStep env p s t rb true).written.getD 1 trajDefault).stepType =
      StepKind.first := by
  simp [collectStep, TimeStep.isLast, h1, h2, clipTraj, fromTransition, tsRestart,
    tsTransition]

/-- C1 witness: the amended statement instantiated at the concrete life-loss
boundary of `lifeLossEnv`. -/
theorem lifeLoss_boundary_store_writes_witness :
    (collectStep lifeLossEnv policy0 2 tMid rbE true).written.length = 2 ∧
    ((collectStep lifeLossEnv policy0 2 tMid rbE true).written.getD 0 trajDefault).nextStepType =
      StepKind.last ∧
    ((collectStep lifeLossEnv policy0 2 tMid rbE true).written.getD 0 trajDefault).discount = 1 ∧
    ((collectStep lifeLossEnv policy0 2 tMid rbE true).written.getD 1 trajDefault).stepType =
      StepKind.first :=
  lifeLoss_boundary_store_writes lifeLossEnv policy0 2 tMid rbE (by decide) (by decide)

/-- C2 counterexample: at a concrete life-loss boundary whose boundary-step
reward is 1 and whose following step also has reward 1, the two transitions
delivered to the metric observers have rewards summing to 2, not to the
original single-step reward 1 of the boundary-crossing transition — the
second observed transition carries the FOLLOWING step's reward, so the
claimed sum equation fails on the code. -/
theorem lifeLoss_observed_reward_sum_refuted :
    (lifeLossEnv.step 2 (policy0 tMid).action).2.stepType = StepKind.last ∧
    lifeLossEnv.gameOver (lifeLossEnv.step 2 (policy0 tMid).action).1 = false ∧
    (lifeLossEnv.step 2 (policy0 tMid).action).2.reward = 1 ∧
    (collectStep lifeLossEnv policy0 2 tMid rbE false).observed.map
      (fun tr => tr.reward) = [1, 1] ∧
    (1 + 1 : ℚ) ≠ 1 := by
  refine ⟨by decide, by decide, by decide, by decide, by norm_num⟩

/-- C2 amended: at every life-loss boundary (either mode) the metric
observers receive exactly two transitions; the first carries the boundary
step's own reward and ends in a synthetic MID (non-terminal) step, the
second carries the reward of the extra environment step taken during the
splice — so each environment step's reward is observed exactly once and the
total over the splice equals the sum of the two real step rewards.
Moreover the episode never terminates at the boundary: the `_run_episode`
loop only ever returns at a state where `game_over` holds. -/
theorem lifeLoss_boundary_observer_calls :
    (∀ (σ : Type) (env : PyEnv σ) (p : Policy) (s : σ) (t : TimeStep)
        (rb : ReplayBuffer) (train : Bool),
      ((env.step s (p t).action).2).stepType = StepKind.last →
      env.gameOver (env.step s (p t).action).1 = false →
        (collectStep env p s t rb train).observed.length = 2 ∧
        ((collectStep env p s t rb train).observed.getD 0 trajDefault).reward =
          (env.step s (p t).action).2.reward ∧
        ((collectStep env p s t rb train).observed.getD 1 trajDefault).reward =
          (env.step (env.step s (p t).action).1
            (p (tsRestart (env.step s (p t).action).2.observation)).action).2.reward ∧
        ((collectStep env p s t rb train).observed.getD 0 trajDefault).nextStepType =
          StepKind.mid) ∧
    (∀ (σ : Type) (env : PyEnv σ) (p : Policy) (up : ℕ) (train : Bool) (fuel : ℕ)
        (s : σ) (t : TimeStep) (acc : EpisodeResult σ),
      (runEpisodeAux env p up train fuel s t acc).map (fun r => env.gameOver r.envState) =
        (runEpisodeAux env p up train fuel s t acc).map (fun _ => true)) := by
  constructor
  · intro σ env p s t rb train h1 h2
    simp [collectStep, TimeStep.isLast, h1, h2, fromTransition, tsRestart, tsTransition]
  · intro σ env p up train fuel s t acc
    exact runEpisodeAux_gameOver_map env p up train fuel s t acc

/-- C2 witness: the observer-call statement instantiated at the concrete
life-loss boundary of `lifeLossEnv` in EVAL mode. -/
theorem lifeLoss_boundary_observer_calls_witness :
    (collectStep lifeLossEnv policy0 2 tMid rbE false).observed.length = 2 ∧
    ((collectStep lifeLossEnv policy0 2 tMid rbE false).observed.getD 0 trajDefault).reward =
      (lifeLossEnv.step 2 (policy0 tMid).action).2.reward ∧
    ((collectStep lifeLossEnv policy0 2 tMid rbE false).observed.getD 1 trajDefault).reward =
      (lifeLossEnv.step (lifeLossEnv.step 2 (policy0 tMid).action).1
        (policy0 (tsRestart (lifeLossEnv.step 2 (policy0 tMid).action).2.observation)).action).2.reward ∧
    ((collectStep lifeLossEnv policy0 2 tMid rbE false).observed.getD 0 trajDefault).nextStepType =
      StepKind.mid :=
  lifeLoss_boundary_observer_calls.1 ℕ lifeLossEnv policy0 2 tMid rbE false
    (by decide) (by decide)

/-- C3: at every life-loss boundary (next timestep LAST, `game_over` false)
the boundary transition's discount is overridden to 1 before storage and
observation: the first transition stored in TRAIN mode has discount 1, and
the first transition delivered to the observers has discount 1 in both TRAIN
and EVAL mode. -/
theorem lifeLoss_discount_override {σ : Type} (env : PyEnv σ) (p : Policy)
    (s : σ) (t : TimeStep) (rb : ReplayBuffer)
    (h1 : ((env.step s (p t).action).2).stepType = StepKind.last)
    (h2 : env.gameOver (env.step s (p t).action).1 = false) :
    ((collectStep env p s t rb true).written.getD 0 trajDefault).discount = 1 ∧
    ((collectStep env p s t rb true).observed.getD 0 trajDefault).discount = 1 ∧
    ((collectStep env p s t rb false).observed.getD 0 trajDefault).discount = 1 := by
  simp [collectStep, TimeStep.isLast, h1, h2, clipTraj, fromTransition, tsRestart,
    tsTransition]

/-- C3 witness: the discount override instantiated at the concrete life-loss
boundary of `lifeLossEnv`. -/
theorem lifeLoss_discount_override_witness :
    ((collectStep lifeLossEnv policy0 2 tMid rbE true).written.getD 0 trajDefault).discount = 1 ∧
    ((collectStep lifeLossEnv policy0 2 tMid rbE true).observed.getD 0 trajDefault).discount = 1 ∧
    ((collectStep lifeLossEnv policy0 2 tMid rbE false).observed.getD 0 trajDefault).discount = 1 :=
  lifeLoss_discount_override lifeLossEnv policy0 2 tMid rbE (by decide) (by decide)

set_option maxRecDepth 8000 in
/-- C4 counterexample: one TRAIN phase with an agent-step budget of 20 and
`update_period = 5` against episodes of fixed length 5 triggers ZERO learning
updates, not 4, even though the environment-steps count passes through 5, 10,
15 and 20 (final metric value 20): the loop `break`s on `game_over` before
the update check, so a multiple of `update_period` reached on the final step
of an episode never triggers an update. -/
theorem update_cadence_refuted :
    (trainPhase (stubEnv 5) policy0 5 20 50 10 0 ⟨1000, []⟩ 0 0).map
      (fun r => r.updates) = some 0 ∧
    (trainPhase (stubEnv 5) policy0 5 20 50 10 0 ⟨1000, []⟩ 0 0).map
      (fun r => r.stepsMetric) = some 20 ∧
    some (0 : ℕ) ≠ some 4 := by
  refine ⟨by decide, by decide, by decide⟩

set_option maxRecDepth 8000 in
/-- C4 amended: a learning update is triggered after a collect step exactly
when the game is not over and the environment-steps metric is a multiple of
`update_period`; the final (game-over) step of an episode never triggers one.
Consequently one TRAIN phase with budget 20 and `update_period = 5` performs
exactly 4 updates when no episode ends at a multiple of 5 (episodes of
length 21: updates fire at steps 5, 10, 15, 20), and an episode that ends at
a game-over state returns with the update count unchanged no matter what the
metric value is. -/
theorem update_cadence_amended :
    ((trainPhase (stubEnv 21) policy0 5 20 50 10 0 ⟨1000, []⟩ 0 0).map
      (fun r => (r.updates, r.envSteps)) = some (4, 21)) ∧
    (∀ (σ : Type) (env : PyEnv σ) (p : Policy) (up fuel : ℕ) (s : σ) (t : TimeStep)
        (acc : EpisodeResult σ),
      env.gameOver (collectStep env p s t acc.rb true).envState = true →
        (runEpisodeAux env p up true (fuel + 1) s t acc).map (fun r => r.updates) =
          some acc.updates) := by
  constructor
  · decide
  · intro σ env p up fuel s t acc hgo
    simp [runEpisodeAux, hgo]

/-- C4 witness: the game-over-skip statement instantiated one step before
the terminal step of `stubEnv 5`, with a nonzero incoming update count. -/
theorem update_cadence_amended_witness :
    (runEpisodeAux (stubEnv 5) policy0 5 true (0 + 1) 4 tMid
      ⟨4, 4, rbE, [], [], 4, 4, 3⟩).map (fun r => r.updates) = some 3 :=
  update_cadence_amended.2 ℕ (stubEnv 5) policy0 5 0 4 tMid
    ⟨4, 4, rbE, [], [], 4, 4, 3⟩ (by decide)

/-- C5 counterexample: `_initial_collect` writes to the replay buffer through
`add_batch` directly, not through `_store_to_rb`, so rewards stored during
INITIAL_COLLECT are NOT clipped: against an environment with per-step reward
2, the store contains rewards equal to 2, outside `[-1, 1]`. -/
theorem initial_collect_clipping_refuted :
    (initialCollect (bigRewardEnv 3) policy0 2 10 0 ⟨10, []⟩).map
      (fun r => r.rb.frames.map (fun tr => tr.reward)) = some [2, 2] ∧
    ¬ ((2 : ℚ) ≤ 1) := by
  refine ⟨by decide, by decide⟩

/-- C5 amended: every reward written to the Store by the Driver's TRAIN-mode
store path (`_store_to_rb`, used by `_collect_step`) lies within `[-1, 1]`
regardless of the input reward's magnitude, and clipping is idempotent;
rewards written during INITIAL_COLLECT bypass `_store_to_rb` and are not
clipped. -/
theorem train_store_rewards_clipped :
    (∀ (σ : Type) (env : PyEnv σ) (p : Policy) (s : σ) (t : TimeStep)
        (rb : ReplayBuffer),
      ∀ x ∈ (collectStep env p s t rb true).written,
        (-1 : ℚ) ≤ x.reward ∧ x.reward ≤ 1) ∧
    (∀ x : ℚ, npClip (-1) 1 (npClip (-1) 1 x) = npClip (-1) 1 x) := by
  constructor
  · intro σ env p s t rb x hx
    simp only [collectStep, apply_ite (@CollectResult.written σ)] at hx
    split at hx
    · simp at hx
      rcases hx with rfl | rfl
      · exact clipTraj_reward_mem _
      · exact clipTraj_reward_mem _
    · simp at hx
      subst hx
      exact clipTraj_reward_mem _
  · intro x
    exact npClip_of_mem (npClip_mem x).1 (npClip_mem x).2

/-- C5 witness: the clipping bound instantiated at the first transition
stored at the concrete life-loss boundary of `lifeLossEnv`. -/
theorem train_store_rewards_clipped_witness :
    (-1 : ℚ) ≤ ((collectStep lifeLossEnv policy0 2 tMid rbE true).written.getD 0
      trajDefault).reward ∧
    ((collectStep lifeLossEnv policy0 2 tMid rbE true).written.getD 0
      trajDefault).reward ≤ 1 :=
  train_store_rewards_clipped.1 ℕ lifeLossEnv policy0 2 tMid rbE
    ((collectStep lifeLossEnv policy0 2 tMid rbE true).written.getD 0 trajDefault)
    (by decide)

/-- C6: an EVAL-mode `_run_episode` never mutates the Experience Store: for
every environment, policy and starting state, whenever the episode loop
returns, the replay buffer is exactly the one passed in and the write log is
empty (both store calls in `_collect_step` are guarded by `train`). -/
theorem eval_never_mutates_store {σ : Type} (env : PyEnv σ) (p : Policy)
    (up fuel : ℕ) (s0 : σ) (rb : ReplayBuffer) (m u : ℕ) :
    (runEpisode env p up false fuel s0 rb m u).map (fun r => (r.rb, r.written)) =
      (runEpisode env p up false fuel s0 rb m u).map (fun _ => (rb, ([] : List Trajectory))) := by
  have h := runEpisodeAux_eval_store env p up fuel (env.reset s0).1 (env.reset s0).2
    ⟨(env.reset s0).1, 0, rb, [], [], 0, m, u⟩
  simpa [runEpisode] using h

set_option maxRecDepth 8000 in
/-- C7: INITIAL_COLLECT with threshold 50 agent steps (200 raw frames divided
by the frame-skip factor 4) and store capacity 100, against a deterministic
environment with fixed-length-10 episodes ending in `game_over`, runs exactly
5 episodes and leaves the store at size exactly 50 — not 100; and in general,
whenever the initial-collect loop terminates, the store size equals the
threshold (or the starting size when that already met it), with no learning
update ever issued by `_initial_collect` (the loop contains no train call). -/
theorem initial_collect_scenario_and_threshold :
    ((initialCollect (stubEnv 10) policy0 (aleToAgentSteps 200) 100 0 rbE).map
      (fun r => (r.rb.size, r.episodes)) = some (50, 5)) ∧
    ((50 : ℕ) ≠ 100) ∧
    (∀ (σ : Type) (env : PyEnv σ) (p : Policy) (thr fuel : ℕ) (s : σ)
        (t : TimeStep) (rb : ReplayBuffer) (eps : ℕ),
      (initialCollectAux env p thr fuel s t rb eps).map (fun r => r.rb.size) =
        (initialCollectAux env p thr fuel s t rb eps).map (fun _ => max rb.size thr)) := by
  refine ⟨by decide, by decide, ?_⟩
  intro σ env p thr fuel s t rb eps
  exact initialCollectAux_size_map env p thr fuel s t rb eps

/-- C8: for every positive decay period and update period (in ALE frames)
and every floor value at most 1, the exploration schedule equals the start
value 1.0 at step 0 of the schedule's counter, equals the floor at every
counter value at or beyond the (converted) decay period, and is monotonically
non-increasing in between. -/
theorem epsilon_schedule_spec (dp upALE e : ℚ) (hdp : 0 < dp) (hup : 0 < upALE)
    (he : e ≤ 1) :
    epsilonSchedule e (epsilonDecaySteps dp upALE) 0 = 1 ∧
    (∀ s : ℚ, epsilonDecaySteps dp upALE ≤ s →
      epsilonSchedule e (epsilonDecaySteps dp upALE) s = e) ∧
    (∀ s1 s2 : ℚ, s1 ≤ s2 →
      epsilonSchedule e (epsilonDecaySteps dp upALE) s2 ≤
        epsilonSchedule e (epsilonDecaySteps dp upALE) s1) := by
  have hd : 0 < epsilonDecaySteps dp upALE := by
    unfold epsilonDecaySteps updatePeriodAgent atariFrameSkip
    positivity
  set d := epsilonDecaySteps dp upALE with hdef
  refine ⟨?_, ?_, ?_⟩
  · simp [epsilonSchedule, polynomialDecay, min_eq_left hd.le]
  · intro s hs
    simp [epsilonSchedule, polynomialDecay, min_eq_right hs, div_self hd.ne']
  · intro s1 s2 h
    have h1e : (0 : ℚ) ≤ 1 - e := by linarith
    have hmin : min s1 d ≤ min s2 d := min_le_min h le_rfl
    have hdiv : min s1 d / d ≤ min s2 d / d := by gcongr
    have hmul := mul_le_mul_of_nonneg_left hdiv h1e
    simp only [epsilonSchedule, polynomialDecay]
    nlinarith

/-- C8 witness: the schedule with a decay period of 16 ALE frames and an
update period of 4 ALE frames (4 schedule steps) and floor 1/100: value 1 at
step 0, value 1/100 at step 5 (past the decay period), non-increasing from
step 1 to step 2. -/
theorem epsilon_schedule_spec_witness :
    epsilonSchedule (1 / 100) (epsilonDecaySteps 16 4) 0 = 1 ∧
    epsilonSchedule (1 / 100) (epsilonDecaySteps 16 4) 5 = 1 / 100 ∧
    epsilonSchedule (1 / 100) (epsilonDecaySteps 16 4) 2 ≤
      epsilonSchedule (1 / 100) (epsilonDecaySteps 16 4) 1 :=
  ⟨(epsilon_schedule_spec 16 4 (1 / 100) (by norm_num) (by norm_num) (by norm_num)).1,
   (epsilon_schedule_spec 16 4 (1 / 100) (by norm_num) (by norm_num) (by norm_num)).2.1 5
     (by norm_num [epsilonDecaySteps, updatePeriodAgent, atariFrameSkip]),
   (epsilon_schedule_spec 16 4 (1 / 100) (by norm_num) (by norm_num) (by norm_num)).2.2 1 2
     (by norm_num)⟩

/-- C9: at every life-loss boundary `_collect_step` makes two environment
`step` calls while `_run_episode`'s `env_steps` counter increments by exactly
one for that call; concretely, running an episode of `lifeLossEnv` (one life
loss at step 3, game over at step 6) returns `env_steps = 5` — the number of
`_collect_step` invocations — while 6 environment steps were actually taken. -/
theorem lifeLoss_step_counting {σ : Type} (env : PyEnv σ) (p : Policy) (s : σ)
    (t : TimeStep) (rb : ReplayBuffer) (train : Bool)
    (h1 : ((env.step s (p t).action).2).stepType = StepKind.last)
    (h2 : env.gameOver (env.step s (p t).action).1 = false) :
    (collectStep env p s t rb train).envStepsTaken = 2 ∧
    (runEpisode lifeLossEnv policy0 5 false 10 0 rbE 0 0).map
      (fun r => (r.envSteps, r.envStepsTaken)) = some (5, 6) := by
  constructor
  · simp [collectStep, TimeStep.isLast, h1, h2,
      apply_ite (@CollectResult.envStepsTaken σ)]
  · decide

/-- C9 witness: the double-step fact instantiated at the concrete life-loss
boundary of `lifeLossEnv`. -/
theorem lifeLoss_step_counting_witness :
    (collectStep lifeLossEnv policy0 2 tMid rbE true).envStepsTaken = 2 ∧
    (runEpisode lifeLossEnv policy0 5 false 10 0 rbE 0 0).map
      (fun r => (r.envSteps, r.envStepsTaken)) = some (5, 6) :=
  lifeLoss_step_counting lifeLossEnv policy0 2 tMid rbE true (by decide) (by decide)

/-- C10: failures of the environment's `reset` or `step` propagate uncaught
to the caller: a failing `reset` makes `_run_episode` fail with the same
error; a failing first `step` (after a successful reset) likewise; and the
orchestrator's train-phase loop re-raises the episode failure instead of
retrying. -/
theorem env_failure_propagates :
    (∀ (σ ε : Type) (env : PyEnvE σ ε) (p : Policy) (up : ℕ) (train : Bool)
        (fuel : ℕ) (s0 : σ) (rb : ReplayBuffer) (m u : ℕ) (e : ε),
      env.reset s0 = Except.error e →
        runEpisodeE env p up train fuel s0 rb m u = Except.error e) ∧
    (∀ (σ ε : Type) (env : PyEnvE σ ε) (p : Policy) (up : ℕ) (train : Bool)
        (fuel : ℕ) (s0 s1 : σ) (t0 : TimeStep) (rb : ReplayBuffer) (m u : ℕ) (e : ε),
      env.reset s0 = Except.ok (s1, t0) →
      env.step s1 (p t0).action = Except.error e →
        runEpisodeE env p up train (fuel + 1) s0 rb m u = Except.error e) ∧
    (∀ (σ ε : Type) (env : PyEnvE σ ε) (p : Policy) (up budget epFuel fuel : ℕ)
        (s0 : σ) (rb : ReplayBuffer) (m u : ℕ) (e : ε),
      0 < budget →
      env.reset s0 = Except.error e →
        trainPhaseAuxE env p up budget epFuel (fuel + 1) s0 0 rb m u =
          Except.error e) := by
  refine ⟨?_, ?_, ?_⟩
  · intro σ ε env p up train fuel s0 rb m u e h
    simp only [runEpisodeE, h]
    rfl
  · intro σ ε env p up train fuel s0 s1 t0 rb m u e hr hs
    simp only [runEpisodeE, hr]
    show runEpisodeAuxE env p up train (fuel + 1) s1 t0
      ⟨s1, 0, rb, [], [], 0, m, u⟩ = Except.error e
    simp only [runEpisodeAuxE, collectStepE, hs]
    rfl
  · intro σ ε env p up budget epFuel fuel s0 rb m u e hb h
    simp only [trainPhaseAuxE, if_pos hb, runEpisodeE, h]
    rfl

/-- C10 witness: the propagation statements instantiated at concrete failing
environments (`reset` error 7; `step` error 9). -/
theorem env_failure_propagates_witness :
    runEpisodeE resetFailEnv policy0 4 true 5 0 rbE 0 0 = Except.error 7 ∧
    runEpisodeE stepFailEnv policy0 4 true (4 + 1) 0 rbE 0 0 = Except.error 9 ∧
    trainPhaseAuxE resetFailEnv policy0 4 20 5 (0 + 1) 0 0 rbE 0 0 = Except.error 7 :=
  ⟨env_failure_propagates.1 ℕ ℕ resetFailEnv policy0 4 true 5 0 rbE 0 0 7 rfl,
   env_failure_propagates.2.1 ℕ ℕ stepFailEnv policy0 4 true 4 0 0 (tsRestart 0)
     rbE 0 0 9 rfl rfl,
   env_failure_propagates.2.2 ℕ ℕ resetFailEnv policy0 4 20 5 0 0 rbE 0 0 7
     (by norm_num) rfl⟩

end TrainEvalAtari


